import Mathlib

/-!
Verification of the route-optimizer core of this repository
(`src/route_optimizer.py`) against its natural-language specification.

The Python source is shallowly embedded: pure functions become Lean
functions, pandas columns become lists of records with `Option` for
missing (NaN) cells, exceptions become `Except PyErr`, and the
third-party OR-Tools solve call becomes a choice of an assignment
satisfying the constraints that `optimize_routes` registers on the
routing model.  Real-number arithmetic of the source (floats) is
modelled over `ℝ`.
-/

/-- Python exceptions raised (or reachable) in `route_optimizer.py`.
Messages are kept short; quotes inside the original messages are elided. -/
inductive PyErr where
  | valueError (msg : String)
  | zeroDivisionError
  | indexError
  deriving Repr, DecidableEq

/-- Python `int(x)` / truncation toward zero, on the rationals. -/
def pytruncQ (q : ℚ) : ℤ := if 0 ≤ q then ⌊q⌋ else ⌈q⌉

/-- Python `int(x)` / truncation toward zero, on the reals. -/
noncomputable def pytruncR (x : ℝ) : ℤ :=
  if 0 ≤ x then ⌊x⌋ else ⌈x⌉

/-- Decimal value of a list of digit characters (helper for the models of
the Python builtins `int` and `float`). -/
def digitsVal (l : List Char) : ℕ :=
  l.foldl (fun a c => 10 * a + (c.toNat - 48)) 0

/-- Strip leading and trailing spaces, as Python `int`/`float` do on
string input (other whitespace kinds are not modelled). -/
def strip (s : List Char) : List Char :=
  ((s.dropWhile (· = ' ')).reverse.dropWhile (· = ' ')).reverse

/-- Model of Python `str.split(sep)` for a one-character separator. -/
def splitOnChar (c : Char) : List Char → List (List Char)
  | [] => [[]]
  | x :: xs =>
    if x = c then [] :: splitOnChar c xs
    else
      match splitOnChar c xs with
      | [] => [[x]]
      | p :: ps => (x :: p) :: ps

/-- Digit-run acceptance shared by the builtin-parser models. -/
def pyintCore (body : List Char) : Option ℕ :=
  if body ≠ [] ∧ body.all Char.isDigit then some (digitsVal body) else none

/-- Model of the Python builtin `int(s)` on a string: optional
whitespace, optional sign, a nonempty digit run.  Underscore separators
and non-ASCII digits are not modelled. -/
def pyint (s : List Char) : Option ℤ :=
  let t := strip s
  if t.head? = some '-' then (pyintCore t.tail).map (fun n => -Int.ofNat n)
  else if t.head? = some '+' then (pyintCore t.tail).map (fun n => Int.ofNat n)
  else (pyintCore t).map (fun n => Int.ofNat n)

/-- Body of the Python-`float` model after the sign has been removed:
either a digit run, or two digit runs (one possibly empty, not both)
around a single dot. -/
def pyfloatCore (sg : ℚ) (body : List Char) : Option ℚ :=
  if '.' ∈ body then
    match splitOnChar '.' body with
    | [ip, fp] =>
      if (ip ≠ [] ∨ fp ≠ []) ∧ ip.all Char.isDigit ∧ fp.all Char.isDigit then
        some (sg * ((digitsVal ip : ℚ) + (digitsVal fp : ℚ) / (10 : ℚ) ^ fp.length))
      else none
    | _ => none
  else if body ≠ [] ∧ body.all Char.isDigit then some (sg * (digitsVal body : ℚ))
  else none

/-- Model of the Python builtin `float(s)` on a string, restricted to the
fixed-point decimal forms (no exponents, underscores, infinities or nan). -/
def pyfloat (s : List Char) : Option ℚ :=
  let t := strip s
  if t.head? = some '-' then pyfloatCore (-1) t.tail
  else if t.head? = some '+' then pyfloatCore 1 t.tail
  else pyfloatCore 1 t

/-- Decimal digit characters of a natural number (at least one digit). -/
def natChars (n : ℕ) : List Char := Nat.toDigits 10 n

/-- `"%02d"`-style zero padding used by `strftime("%H:%M")`. -/
def pad2Chars (n : ℕ) : List Char :=
  if n < 10 then '0' :: natChars n else natChars n

/-- The string produced by `t.strftime("%H:%M")` (lines 26 and 28 of
`route_optimizer.py`). -/
def hmString (h m : ℕ) : List Char := pad2Chars h ++ ':' :: pad2Chars m

/-- A cell value fed to `time_to_minutes`: a `pandas.Timestamp`, a
`datetime.time` (both carrying their time of day), or a string.
`str(t)` of a plain number is covered by the string form. -/
inductive TimeVal where
  | timestamp (h m : ℕ)
  | timeOfDay (h m : ℕ)
  | str (s : List Char)
  deriving Repr, DecidableEq

/-- The string `s = str(t)` that lines 25–29 of `route_optimizer.py`
produce before parsing. -/
def timeValStr : TimeVal → List Char
  | .timestamp h m => hmString h m
  | .timeOfDay h m => hmString h m
  | .str s => s

/-- The string-parsing stage of `time_to_minutes` (lines 30–33 of
`route_optimizer.py`), applied to `s = str(t)`: an `"H:M"` form goes
through `int` on both pieces, anything else through `int(float(s))`;
parse failures raise `ValueError`. -/
def time_to_minutes_str (s : List Char) : Except PyErr ℤ :=
  if ':' ∈ s then
    match splitOnChar ':' s with
    | [a, b] =>
      match pyint a, pyint b with
      | some h, some m => .ok (h * 60 + m)
      | _, _ => .error (.valueError "invalid literal for int with base 10")
    | _ => .error (.valueError "too many values to unpack")
  else
    match pyfloat s with
    | some q => .ok (pytruncQ q)
    | none => .error (.valueError "could not convert string to float")

/-- Embedding of `time_to_minutes` (lines 23–33 of
`route_optimizer.py`): normalize the value to a string, then parse. -/
def time_to_minutes (t : TimeVal) : Except PyErr ℤ :=
  time_to_minutes_str (timeValStr t)

/-! ## Geodesic distance (lines 7–21 of `route_optimizer.py`) -/

/-- Python `math.radians`. -/
noncomputable def radians (x : ℝ) : ℝ := x * Real.pi / 180

/-- Python `math.atan2 y x`, i.e. the argument of the complex number
`x + y*I`. -/
noncomputable def atan2 (y x : ℝ) : ℝ := Complex.arg ⟨x, y⟩

/-- The intermediate `a` of `haversine` (line 12 of
`route_optimizer.py`). -/
noncomputable def hava (lat1 lon1 lat2 lon2 : ℝ) : ℝ :=
  Real.sin (radians (lat2 - lat1) / 2) ^ 2 +
    Real.cos (radians lat1) * Real.cos (radians lat2) *
      Real.sin (radians (lon2 - lon1) / 2) ^ 2

/-- Embedding of `haversine` (lines 7–13 of `route_optimizer.py`):
great-circle distance in meters, Earth radius 6371 km. -/
noncomputable def haversine (lat1 lon1 lat2 lon2 : ℝ) : ℝ :=
  6371 * 2 *
      atan2 (Real.sqrt (hava lat1 lon1 lat2 lon2))
        (Real.sqrt (1 - hava lat1 lon1 lat2 lon2)) *
    1000

/-- Embedding of `create_distance_matrix` (lines 15–21 of
`route_optimizer.py`): `int(...)` truncation of each pairwise distance. -/
noncomputable def create_distance_matrix (locations : List (ℝ × ℝ)) :
    List (List ℤ) :=
  locations.map fun f => locations.map fun t =>
    pytruncR (haversine f.1 f.2 t.1 t.2)

/-- Entry `(i, j)` of the distance matrix of `locations`, with `0` for
out-of-range indices. -/
noncomputable def mEntry (locations : List (ℝ × ℝ)) (i j : ℕ) : ℤ :=
  ((create_distance_matrix locations).getD i []).getD j 0

/-! ## Input records (rows of the pandas data frames) -/

/-- One row of the warehouse table.  `Option` fields model NaN cells
filled by `fillna` in `optimize_routes`. -/
structure StopRec where
  warehouseName : String
  latitude : ℝ
  longitude : ℝ
  demand : Option ℤ
  service_time : Option ℤ
  start_time : Option TimeVal
  end_time : Option TimeVal
  priority : Option ℤ

/-- One row of the vehicle table (only `capacity` is read). -/
structure VehicleRec where
  vtype : String
  capacity : Option ℤ

/-- One row of the driver table (only the shift times are read). -/
structure DriverRec where
  start_time : TimeVal
  end_time : TimeVal

/-- The `"00:00"` default of line 52 of `route_optimizer.py`. -/
def default00 : TimeVal := .str ['0', '0', ':', '0', '0']

/-- The `"23:59"` default of line 53 of `route_optimizer.py`. -/
def default2359 : TimeVal := .str ['2', '3', ':', '5', '9']

/-! ## Problem construction (lines 35–108 of `route_optimizer.py`) -/

/-- Depot extraction (lines 37–42): the rows whose `Warehouse Name`
equals `"CW8"` select the depot (first match), all other rows are the
destinations; no match raises `ValueError`. -/
def extractDepot (df : List StopRec) : Except PyErr (StopRec × List StopRec) :=
  match df.filter (fun r => r.warehouseName == "CW8") with
  | [] => .error (.valueError "Depot CW8 not found in warehouse data.")
  | d :: _ => .ok (d, df.filter (fun r => r.warehouseName != "CW8"))

/-- The `priorities` list of line 54: depot entry `0`, then the
destinations' priorities with NaN defaulted to `0`. -/
def buildPriorities (dests : List StopRec) : List ℤ :=
  0 :: dests.map (fun r => r.priority.getD 0)

/-- The internal state the source builds before solving: the node data
of lines 44–58 plus the distance matrix of line 64. -/
structure Problem where
  locations : List (ℝ × ℝ)
  demands : List ℤ
  service_times : List ℤ
  starts : List ℤ
  ends : List ℤ
  priorities : List ℤ
  caps : List ℤ
  driverWindows : List (ℤ × ℤ)
  matrix : List (List ℤ)
  speed : ℝ
  numVehicles : ℕ
  destNames : List String
  depotName : String

/-- Embedding of steps 1–9 of `optimize_routes` (lines 36–108): depot
extraction, node lists with their defaults, time parsing, vehicle
capacities and driver windows, and the distance matrix.  A missing
driver row for a vehicle raises `IndexError` as `iloc` does. -/
noncomputable def buildProblem (df : List StopRec) (vdf : List VehicleRec)
    (ddf : List DriverRec) (speed_factor : ℝ) : Except PyErr Problem := do
  let (depot, dests) ← extractDepot df
  let startsTail ← dests.mapM (fun r => time_to_minutes (r.start_time.getD default00))
  let endsTail ← dests.mapM (fun r => time_to_minutes (r.end_time.getD default2359))
  let dws ← (List.range vdf.length).mapM (fun vid =>
    match ddf.get? vid with
    | none => Except.error PyErr.indexError
    | some d => do
        let a ← time_to_minutes d.start_time
        let b ← time_to_minutes d.end_time
        pure (a, b))
  let locations := (depot.latitude, depot.longitude) ::
    dests.map (fun r => (r.latitude, r.longitude))
  pure
    { locations := locations
      demands := 0 :: dests.map (fun r => r.demand.getD 0)
      service_times := 0 :: dests.map (fun r => r.service_time.getD 0)
      starts := 0 :: startsTail
      ends := 1440 :: endsTail
      priorities := buildPriorities dests
      caps := vdf.map (fun v => v.capacity.getD 0)
      driverWindows := dws
      matrix := create_distance_matrix locations
      speed := speed_factor
      numVehicles := vdf.length
      destNames := dests.map (fun r => r.warehouseName)
      depotName := depot.warehouseName }

/-! ## Callbacks and the routing model (lines 60–117) -/

/-- Embedding of `time_cb` (lines 82–87): drive minutes from the
distance-matrix entry and the speed factor, plus the origin's service
time, truncated by `int(...)`.  A zero speed factor raises
`ZeroDivisionError`; the code performs no other validation. -/
noncomputable def time_cb (dist_m : ℤ) (speed_factor : ℝ) (svc : ℤ) :
    Except PyErr ℤ :=
  if speed_factor = 0 then .error .zeroDivisionError
  else .ok (pytruncR ((dist_m : ℝ) / 1000 / speed_factor * 60 + (svc : ℝ)))

/-- The time transit used by the solver model: `time_cb` on the
problem's own matrix, speed and service times (the error branch is
unreachable from the solver when the speed factor is nonzero). -/
noncomputable def timeTransit (P : Problem) (a b : ℕ) : ℤ :=
  match time_cb ((P.matrix.getD a []).getD b 0) P.speed (P.service_times.getD a 0) with
  | .ok v => v
  | .error _ => 0

/-- Embedding of `priority_cb` (lines 111–115): a flat 500 penalty on an
arc from a lower-priority node to a higher-priority one. -/
def priorityCb (pr : List ℤ) (fn tn : ℕ) : ℤ :=
  if pr.getD fn 0 < pr.getD tn 0 then 500 else 0

/-- The distance callback `dist_cb` (lines 65–68); the
`RoutingIndexManager` node/index translation is the identity here. -/
def distCb (dm : List (List ℤ)) (a b : ℕ) : ℤ := (dm.getD a []).getD b 0

/-- The single arc-cost-evaluator slot of an OR-Tools `RoutingModel`:
`SetArcCostEvaluatorOfAllVehicles` stores one evaluator for every
vehicle, so a later call replaces an earlier one. -/
structure RoutingModel where
  arcCost : Option (ℕ → ℕ → ℤ)

/-- Model of `routing.SetArcCostEvaluatorOfAllVehicles` (lines 70 and
117): overwrite the single evaluator slot. -/
def setArcCostEvaluatorOfAllVehicles (_m : RoutingModel) (f : ℕ → ℕ → ℤ) :
    RoutingModel :=
  { arcCost := some f }

/-- The routing model as `optimize_routes` leaves it before the solve:
first the distance evaluator is installed (line 70), then the priority
evaluator (line 117). -/
def buildRoutingModel (dm : List (List ℤ)) (pr : List ℤ) : RoutingModel :=
  setArcCostEvaluatorOfAllVehicles
    (setArcCostEvaluatorOfAllVehicles { arcCost := none } (distCb dm))
    (priorityCb pr)

/-- The arc cost the solver actually charges for an arc, read from the
evaluator slot. -/
def effectiveArcCost (m : RoutingModel) (a b : ℕ) : ℤ :=
  match m.arcCost with
  | some f => f a b
  | none => 0

/-- Modelled from the spec: the combined arc cost the specification
describes, total travel distance plus priority-violation penalty on the
arc (spec section 3, Solution objective).  Kept separate from the
source-derived `effectiveArcCost` for comparison. -/
def specCombinedArcCost (dm : List (List ℤ)) (pr : List ℤ) (a b : ℕ) : ℤ :=
  distCb dm a b + priorityCb pr a b

/-! ## Solutions of the routing model (lines 119–128) -/

/-- A solver assignment: per vehicle the visited stop nodes in order,
and per vehicle the `Time` cumul values at the start, at each visit and
at the end. -/
structure SolModel where
  vroutes : List (List ℕ)
  times : List (List ℤ)

/-- Node at position `k` of the depot-to-depot path of a route: depot,
then the stops, then the depot again. -/
def pathNode (r : List ℕ) (k : ℕ) : ℕ :=
  if k = 0 then 0 else if k ≤ r.length then r.getD (k - 1) 0 else 0

/-- The `Time`-dimension constraints registered in lines 88–108 for one
vehicle: cumul chain with at most 30 minutes waiting slack, a 1440
horizon, stop time windows (lines 99–101) and the driver shift window on
the vehicle start (lines 104–108). -/
def TimeOk (P : Problem) (v : ℕ) (r : List ℕ) (ts : List ℤ) : Prop :=
  ts.length = r.length + 2 ∧
  (P.driverWindows.getD v (0, 0)).1 ≤ ts.getD 0 0 ∧
  ts.getD 0 0 ≤ (P.driverWindows.getD v (0, 0)).2 ∧
  (∀ k, k < r.length + 1 →
    ts.getD k 0 + timeTransit P (pathNode r k) (pathNode r (k + 1)) ≤ ts.getD (k + 1) 0 ∧
    ts.getD (k + 1) 0 ≤
      ts.getD k 0 + timeTransit P (pathNode r k) (pathNode r (k + 1)) + 30) ∧
  (∀ k, k < r.length →
    P.starts.getD (r.getD k 0) 0 ≤ ts.getD (k + 1) 0 ∧
    ts.getD (k + 1) 0 ≤ P.ends.getD (r.getD k 0) 0) ∧
  (∀ k, k < r.length + 2 → 0 ≤ ts.getD k 0 ∧ ts.getD k 0 ≤ 1440)

/-- The stop node identifiers `1 .. n-1` of a problem. -/
def stopIdxs (P : Problem) : List ℕ := List.range' 1 (P.locations.length - 1)

/-- A feasible assignment of the registered model: one route per
vehicle, every stop node visited exactly once across all vehicles
(`optimize_routes` registers no disjunctions, so a solution must visit
every node), the capacity dimension of lines 72–79 and the time
dimension of lines 81–108. -/
def ValidSol (P : Problem) (s : SolModel) : Prop :=
  s.vroutes.length = P.numVehicles ∧
  s.times.length = P.numVehicles ∧
  s.vroutes.flatten.Perm (stopIdxs P) ∧
  (∀ v, v < P.numVehicles →
    ((s.vroutes.getD v []).map (fun i => P.demands.getD i 0)).sum ≤ P.caps.getD v 0) ∧
  (∀ v, v < P.numVehicles → TimeOk P v (s.vroutes.getD v []) (s.times.getD v []))

open Classical in
/-- Model of `routing.SolveWithParameters` (line 126): some feasible
assignment of the registered model when one exists, `none` otherwise. -/
noncomputable def SolveWithParameters (P : Problem) : Option SolModel :=
  if h : ∃ s, ValidSol P s then some h.choose else none

/-! ## Route extraction (lines 130–163) -/

/-- String of the decimal digits of a natural number. -/
def natStr (n : ℕ) : String := ⟨natChars n⟩

/-- `"%02d"` of a natural number. -/
def pad2Str (n : ℕ) : String := ⟨pad2Chars n⟩

/-- `"%02d"` of an integer (negative values print their sign). -/
def fmtInt2 (n : ℤ) : String :=
  if n < 0 then "-" ++ natStr (-n).toNat else pad2Str n.toNat

/-- `f"{arr//60:02d}:{arr%60:02d}"` of lines 146 and 155 (Python floor
division and modulus). -/
def arrStr (arr : ℤ) : String :=
  fmtInt2 (Int.ediv arr 60) ++ ":" ++ fmtInt2 (Int.emod arr 60)

/-- Embedding of the route extraction loop (lines 134–159): per vehicle
the depot start label, one label per visited stop with its arrival time,
and the depot return label.  The folium map drawing is outside the
embedded core. -/
def extractRoutes (P : Problem) (s : SolModel) : List (List String) :=
  (List.range P.numVehicles).map fun v =>
    let r := s.vroutes.getD v []
    let ts := s.times.getD v []
    (P.depotName ++ " (Start)") ::
      ((List.range r.length).map fun k =>
        P.destNames.getD (r.getD k 0 - 1) "" ++ " (Arr " ++
          arrStr (ts.getD (k + 1) 0) ++ ")") ++
      [P.depotName ++ " (Return " ++ arrStr (ts.getD (r.length + 1) 0) ++ ")"]

/-- Embedding of `optimize_routes` (lines 35–163): build the model,
solve it, and either raise `ValueError` (line 128) or return the
extracted routes with the map file name. -/
noncomputable def optimize_routes (df : List StopRec) (vdf : List VehicleRec)
    (ddf : List DriverRec) (speed_factor : ℝ) (_search_strategy : String) :
    Except PyErr (List (List String) × String) :=
  match buildProblem df vdf ddf speed_factor with
  | .error e => .error e
  | .ok P =>
    match SolveWithParameters P with
    | none => .error (.valueError "No solution found.")
    | some sol => .ok (extractRoutes P sol, "route_map.html")

/-! ## Concrete instances used by witnesses and counterexamples -/

/-- The depot row used in the concrete instances. -/
def depotRec : StopRec :=
  { warehouseName := "CW8", latitude := 0, longitude := 0, demand := none,
    service_time := none, start_time := none, end_time := none, priority := none }

/-- A one-unit-demand stop co-located with the depot. -/
def stopA : StopRec :=
  { depotRec with warehouseName := "A", demand := some 1 }

/-- A stop whose demand (5) exceeds the capacity (3) of the only vehicle
of `vdf1`. -/
def stopB : StopRec :=
  { depotRec with warehouseName := "B", demand := some 5 }

/-- A stop with positive priority. -/
def stopP : StopRec :=
  { depotRec with warehouseName := "PQ", priority := some 2 }

/-- A second depot row matching the depot key (duplicate `"CW8"`). -/
def depotRec2 : StopRec := { depotRec with latitude := 1 }

def df0 : List StopRec := [depotRec, stopA]
def vdf0 : List VehicleRec := [{ vtype := "van", capacity := some 10 }]
def ddf0 : List DriverRec := [{ start_time := default00, end_time := default2359 }]

def df1 : List StopRec := [depotRec, stopB]
def vdf1 : List VehicleRec := [{ vtype := "van", capacity := some 3 }]

def df2 : List StopRec := [depotRec, depotRec2]

/-- The problem value `buildProblem` produces from `df0`, `vdf0`,
`ddf0` at speed factor 30. -/
def P0 : Problem :=
  { locations := [((0 : ℝ), (0 : ℝ)), (0, 0)], demands := [0, 1],
    service_times := [0, 0], starts := [0, 0], ends := [1440, 1439],
    priorities := [0, 0], caps := [10], driverWindows := [(0, 1439)],
    matrix := [[0, 0], [0, 0]], speed := 30, numVehicles := 1,
    destNames := ["A"], depotName := "CW8" }

/-- The problem value `buildProblem` produces from `df1`, `vdf1`,
`ddf0` at speed factor 30. -/
def P1 : Problem :=
  { P0 with demands := [0, 5], caps := [3], destNames := ["B"] }

/-- A feasible assignment for `P0`: the single vehicle serves stop 1,
all cumul times zero. -/
def s0 : SolModel := { vroutes := [[1]], times := [[0, 0, 0]] }

/-! ## Grammar of the time values the parser accepts -/

/-- A string the builtin-`int` model accepts: optional spaces, optional
sign, then a nonempty digit run. -/
def IntLiteral (a : List Char) : Prop :=
  ∃ ds : List Char, ds ≠ [] ∧ ds.all Char.isDigit ∧
    (strip a = ds ∨ strip a = '-' :: ds ∨ strip a = '+' :: ds)

/-- A string the builtin-`float` model accepts: optional sign, then
either a digit run or two digit runs (not both empty) around one dot. -/
def FloatLiteral (s : List Char) : Prop :=
  ∃ sg body : List Char,
    (sg = [] ∨ sg = ['-'] ∨ sg = ['+']) ∧ strip s = sg ++ body ∧
    ((body ≠ [] ∧ body.all Char.isDigit) ∨
      ∃ ip fp, body = ip ++ '.' :: fp ∧ (ip ≠ [] ∨ fp ≠ []) ∧
        ip.all Char.isDigit ∧ fp.all Char.isDigit)

/-- A time value `time_to_minutes` can parse: either an `"H:M"` form
whose two pieces are int literals, or a colon-free float literal. -/
def WellFormedTime (t : TimeVal) : Prop :=
  (∃ a b, timeValStr t = a ++ ':' :: b ∧ ':' ∉ a ∧ ':' ∉ b ∧
    IntLiteral a ∧ IntLiteral b) ∨
  (':' ∉ timeValStr t ∧ FloatLiteral (timeValStr t))

/-! ## Helper lemmas -/

lemma pytruncR_nonneg {x : ℝ} (hx : 0 ≤ x) : 0 ≤ pytruncR x := by
  unfold pytruncR
  rw [if_pos hx]
  exact Int.le_floor.mpr (by exact_mod_cast hx)

lemma pytruncR_zero : pytruncR 0 = 0 := by
  unfold pytruncR
  rw [if_pos le_rfl]
  exact Int.floor_zero

lemma hava_symm (la lo lb lob : ℝ) : hava la lo lb lob = hava lb lob la lo := by
  unfold hava
  have h1 : radians (la - lb) / 2 = -(radians (lb - la) / 2) := by
    unfold radians; ring
  have h2 : radians (lo - lob) / 2 = -(radians (lob - lo) / 2) := by
    unfold radians; ring
  rw [h1, h2, Real.sin_neg, Real.sin_neg]
  ring

lemma hava_self (la lo : ℝ) : hava la lo la lo = 0 := by
  unfold hava radians
  simp

lemma atan2_nonneg (y x : ℝ) (hy : 0 ≤ y) : 0 ≤ atan2 y x :=
  Complex.arg_nonneg_iff.mpr hy

lemma atan2_zero_one : atan2 0 1 = 0 := by
  unfold atan2
  have h : (⟨1, 0⟩ : ℂ) = 1 := by
    apply Complex.ext <;> simp
  rw [h, Complex.arg_one]

lemma haversine_symm (la lo lb lob : ℝ) :
    haversine la lo lb lob = haversine lb lob la lo := by
  unfold haversine
  rw [hava_symm la lo lb lob]

lemma haversine_self (la lo : ℝ) : haversine la lo la lo = 0 := by
  unfold haversine
  rw [hava_self, Real.sqrt_zero]
  norm_num [Real.sqrt_one, atan2_zero_one]

lemma haversine_nonneg (la lo lb lob : ℝ) : 0 ≤ haversine la lo lb lob := by
  unfold haversine
  have h := atan2_nonneg (Real.sqrt (hava la lo lb lob))
    (Real.sqrt (1 - hava la lo lb lob)) (Real.sqrt_nonneg _)
  linarith

lemma mEntry_eq (locs : List (ℝ × ℝ)) (i j : ℕ) :
    mEntry locs i j =
      match locs[i]?, locs[j]? with
      | some p, some q => pytruncR (haversine p.1 p.2 q.1 q.2)
      | _, _ => 0 := by
  unfold mEntry create_distance_matrix
  simp only [List.getD_eq_getElem?_getD, List.getElem?_map]
  cases hi : locs[i]? with
  | none => simp
  | some p =>
    simp only [Option.map_some', Option.getD_some, List.getElem?_map]
    cases hj : locs[j]? with
    | none => simp
    | some q => simp

/-! ## Claim theorems -/

/-- C1: the claim states that the scalar objective minimized by
`optimize_routes` combines total distance and total priority penalty,
with neither term replacing the other as the effective arc cost.  In the
code the second `SetArcCostEvaluatorOfAllVehicles` call (line 117)
replaces the distance evaluator installed at line 70, so the effective
arc cost is the priority penalty alone; at the distance matrix
`[[0,100],[100,0]]` with equal priorities the effective cost of arc
`(0,1)` is `0` while the combined objective the spec describes is
`100`. -/
theorem c1_priority_evaluator_replaces_distance :
    (∀ dm pr a b, effectiveArcCost (buildRoutingModel dm pr) a b = priorityCb pr a b) ∧
    effectiveArcCost (buildRoutingModel [[0, 100], [100, 0]] [0, 0]) 0 1 = 0 ∧
    specCombinedArcCost [[0, 100], [100, 0]] [0, 0] 0 1 = 100 :=
  ⟨fun _ _ _ _ => rfl, by decide, by decide⟩

/-- C2: `haversine` is symmetric and vanishes on equal coordinates, and
the matrix built by `create_distance_matrix` is square and symmetric
with non-negative integer-meter entries and a zero diagonal. -/
theorem c2_distance_matrix_symmetric_nonneg_zero_diag :
    (∀ la lo lb lob, haversine la lo lb lob = haversine lb lob la lo) ∧
    (∀ la lo, haversine la lo la lo = 0) ∧
    (∀ locs : List (ℝ × ℝ), (create_distance_matrix locs).length = locs.length ∧
      (create_distance_matrix locs).map List.length =
        List.replicate locs.length locs.length) ∧
    (∀ locs : List (ℝ × ℝ), ∀ i j, mEntry locs i j = mEntry locs j i ∧
      0 ≤ mEntry locs i j ∧ mEntry locs i i = 0) := by
  refine ⟨haversine_symm, haversine_self, ?_, ?_⟩
  · intro locs
    constructor
    · simp [create_distance_matrix]
    · rw [List.eq_replicate_iff]
      constructor
      · simp [create_distance_matrix]
      · intro b hb
        simp only [create_distance_matrix, List.map_map, List.mem_map,
          Function.comp] at hb
        obtain ⟨a, _, rfl⟩ := hb
        simp
  · intro locs i j
    refine ⟨?_, ?_, ?_⟩
    · rw [mEntry_eq, mEntry_eq]
      cases hi : locs[i]? with
      | none => cases hj : locs[j]? <;> rfl
      | some p =>
        cases hj : locs[j]? with
        | none => rfl
        | some q => simp [haversine_symm]
    · rw [mEntry_eq]
      cases hi : locs[i]? with
      | none => cases hj : locs[j]? <;> simp
      | some p =>
        cases hj : locs[j]? with
        | none => simp
        | some q => exact pytruncR_nonneg (haversine_nonneg _ _ _ _)
    · rw [mEntry_eq]
      cases hi : locs[i]? with
      | none => rfl
      | some p => simp [haversine_self, pytruncR_zero]

/-- C5 counterexample: with two records matching the depot key `"CW8"`,
the depot extraction succeeds (taking the first match) instead of
failing, so the "zero or greater than one matches is an error" claim is
false at this input. -/
theorem c5_duplicate_depot_not_an_error :
    (df2.filter (fun r => r.warehouseName == "CW8")).length = 2 ∧
    extractDepot df2 = .ok (depotRec, []) :=
  ⟨rfl, rfl⟩

/-- C5 amended: depot extraction fails (with `ValueError`, the code has
no `DepotNotFoundError`) exactly when no record matches the depot key;
when one or more records match, the first match becomes the depot and
the remaining matches are silently dropped from the destinations. -/
theorem c5_depot_error_iff_no_match (df : List StopRec) :
    ((∃ e, extractDepot df = .error e) ↔
      df.filter (fun r => r.warehouseName == "CW8") = []) ∧
    (∀ d ds, df.filter (fun r => r.warehouseName == "CW8") = d :: ds →
      extractDepot df = .ok (d, df.filter (fun r => r.warehouseName != "CW8"))) := by
  constructor
  · constructor
    · rintro ⟨e, he⟩
      by_cases h : df.filter (fun r => r.warehouseName == "CW8") = []
      · exact h
      · obtain ⟨d, ds, hds⟩ := List.exists_cons_of_ne_nil h
        unfold extractDepot at he
        rw [hds] at he
        simp at he
    · intro h
      refine ⟨.valueError "Depot CW8 not found in warehouse data.", ?_⟩
      unfold extractDepot
      rw [h]
  · intro d ds h
    unfold extractDepot
    rw [h]

/-- C5 witness for the amended claim, at the duplicate-depot input. -/
theorem c5_depot_error_iff_no_match_witness :
    df2.filter (fun r => r.warehouseName == "CW8") = depotRec :: [depotRec2] ∧
    extractDepot df2 = .ok (depotRec, df2.filter (fun r => r.warehouseName != "CW8")) :=
  ⟨rfl, (c5_depot_error_iff_no_match df2).2 depotRec [depotRec2] rfl⟩

/-- C6 counterexample: at distance 1000 m, speed factor `-1` and service
time 0, `time_cb` returns the value `-60` instead of failing, so the
"fails for every non-positive speed factor" claim is false (only the
zero speed factor raises, and with `ZeroDivisionError`, not
`InvalidInputError`). -/
theorem c6_negative_speed_returns_value :
    time_cb 1000 (-1) 0 = .ok (-60) := by
  unfold time_cb
  rw [if_neg (by norm_num : ¬((-1 : ℝ) = 0))]
  have h1 : ((1000 : ℤ) : ℝ) / 1000 / (-1) * 60 + ((0 : ℤ) : ℝ) = ((-60 : ℤ) : ℝ) := by
    norm_num
  rw [h1]
  unfold pytruncR
  rw [if_neg (by norm_num : ¬((0 : ℝ) ≤ ((-60 : ℤ) : ℝ))), Int.ceil_intCast]

/-- C6 amended: for positive speed factors the travel-time computation
returns `(d / 1000) / s * 60` truncated plus the origin's service time,
which (for non-negative distance and service time) equals truncating the
travel time alone before the service-time addition; the code performs no
speed validation, so non-positive speed factors do not raise
`InvalidInputError` (negative ones return a value, zero raises
`ZeroDivisionError`). -/
theorem c6_travel_time_truncation (d svc : ℤ) (s : ℝ)
    (hd : 0 ≤ d) (hs : 0 < s) (hsvc : 0 ≤ svc) :
    time_cb d s svc = .ok (pytruncR ((d : ℝ) / 1000 / s * 60) + svc) := by
  have h1 : (0 : ℝ) ≤ (d : ℝ) := by exact_mod_cast hd
  have hx : (0 : ℝ) ≤ (d : ℝ) / 1000 / s * 60 :=
    mul_nonneg (div_nonneg (div_nonneg h1 (by norm_num)) hs.le) (by norm_num)
  have h2 : (0 : ℝ) ≤ (svc : ℝ) := by exact_mod_cast hsvc
  unfold time_cb
  rw [if_neg hs.ne']
  unfold pytruncR
  rw [if_pos (by linarith), if_pos hx]
  congr 1
  exact Int.floor_add_int _ _

/-- C6 witness for the amended claim: 1000 m at 30 km/h with 5 minutes
of service. -/
theorem c6_travel_time_truncation_witness :
    (0 : ℤ) ≤ 1000 ∧ (0 : ℝ) < 30 ∧ (0 : ℤ) ≤ 5 ∧
    time_cb 1000 30 5 = .ok (pytruncR (((1000 : ℤ) : ℝ) / 1000 / 30 * 60) + 5) :=
  ⟨by norm_num, by norm_num, by norm_num,
    c6_travel_time_truncation 1000 5 30 (by norm_num) (by norm_num) (by norm_num)⟩

/-- C7 counterexample: on the empty location list
`create_distance_matrix` returns the empty matrix; no error is raised,
so the "fails with `InvalidInputError` on empty input" claim is false. -/
theorem c7_empty_input_returns_empty_matrix :
    create_distance_matrix [] = ([] : List (List ℤ)) := rfl

/-- C7 amended: matrix construction is total; it returns one row per
input location, so the empty input yields the empty matrix rather than
an error. -/
theorem c7_matrix_construction_total :
    (∀ locs : List (ℝ × ℝ), (create_distance_matrix locs).length = locs.length) ∧
    create_distance_matrix [] = ([] : List (List ℤ)) :=
  ⟨fun locs => by simp [create_distance_matrix], rfl⟩

/-- C10: the priorities list built by `optimize_routes` fixes the depot
entry to 0, so the arc from the depot to any stop with positive priority
is charged the full 500-unit penalty by `priority_cb`. -/
theorem c10_depot_arc_to_positive_priority_penalized
    (dests : List StopRec) (i : ℕ)
    (hp : 0 < (buildPriorities dests).getD (i + 1) 0) :
    (buildPriorities dests).getD 0 0 = 0 ∧
    priorityCb (buildPriorities dests) 0 (i + 1) = 500 := by
  have h0 : (buildPriorities dests).getD 0 0 = 0 := rfl
  have hlt : (buildPriorities dests).getD 0 0 <
      (buildPriorities dests).getD (i + 1) 0 := by
    rw [h0]; exact hp
  exact ⟨h0, by unfold priorityCb; rw [if_pos hlt]⟩

/-- C10 witness: a single destination of priority 2. -/
theorem c10_depot_arc_to_positive_priority_penalized_witness :
    0 < (buildPriorities [stopP]).getD (0 + 1) 0 ∧
    ((buildPriorities [stopP]).getD 0 0 = 0 ∧
      priorityCb (buildPriorities [stopP]) 0 (0 + 1) = 500) :=
  ⟨by decide, c10_depot_arc_to_positive_priority_penalized [stopP] 0 (by decide)⟩

/-! ## Solver-level lemmas for C3 and C4 -/

lemma getD_int_nonneg (l : List ℤ) (hl : ∀ d ∈ l, 0 ≤ d) (j : ℕ) :
    0 ≤ l.getD j 0 := by
  rw [List.getD_eq_getElem?_getD]
  cases h : l[j]? with
  | none => simp
  | some x =>
    simp only [Option.getD_some]
    exact hl x (List.mem_iff_getElem?.mpr ⟨j, h⟩)

lemma getD_mem_of_lt (l : List ℤ) (v : ℕ) (h : v < l.length) :
    l.getD v 0 ∈ l := by
  rw [List.getD_eq_getElem?_getD, List.getElem?_eq_getElem h]
  simp only [Option.getD_some]
  exact List.getElem_mem h

lemma listGetD_eq_getElem {α : Type} (L : List α) (d : α) (v : ℕ)
    (h : v < L.length) : L.getD v d = L[v] := by
  rw [List.getD_eq_getElem?_getD, List.getElem?_eq_getElem h]
  rfl

/-- If some stop's demand exceeds every vehicle capacity (and demands
are non-negative), no assignment satisfies the capacity dimension, so
the solve returns nothing. -/
lemma solve_none_of_oversized_demand (P : Problem)
    (hnn : ∀ d ∈ P.demands, 0 ≤ d)
    (hcaps : P.caps.length = P.numVehicles)
    (hbig : ∃ i ∈ stopIdxs P, ∀ c ∈ P.caps, c < P.demands.getD i 0) :
    SolveWithParameters P = none := by
  unfold SolveWithParameters
  rw [dif_neg]
  rintro ⟨s, hlen, _, hperm, hcap, _⟩
  obtain ⟨i, hi, hb⟩ := hbig
  have h1 : i ∈ s.vroutes.flatten := hperm.mem_iff.mpr hi
  obtain ⟨r, hr, hir⟩ := List.mem_flatten.mp h1
  obtain ⟨v, hv, hveq⟩ := List.mem_iff_getElem.mp hr
  have hv' : v < P.numVehicles := hlen ▸ hv
  have hgd : s.vroutes.getD v [] = r := by
    rw [listGetD_eq_getElem _ _ _ hv]; exact hveq
  have hc := hcap v hv'
  rw [hgd] at hc
  have hmem : P.demands.getD i 0 ∈ r.map (fun j => P.demands.getD j 0) :=
    List.mem_map_of_mem _ hir
  have hle := List.single_le_sum
    (fun x hx => by
      obtain ⟨j, _, rfl⟩ := List.mem_map.mp hx
      exact getD_int_nonneg P.demands hnn j) _ hmem
  have hcv : P.caps.getD v 0 ∈ P.caps :=
    getD_mem_of_lt _ _ (by rw [hcaps]; exact hv')
  have := hb _ hcv
  omega

lemma getD_zero2 (a : ℕ) : ([0, 0] : List ℤ).getD a 0 = 0 :=
  match a with
  | 0 => rfl
  | 1 => rfl
  | _ + 2 => rfl

lemma matrix00_getD (a b : ℕ) :
    (([[0, 0], [0, 0]] : List (List ℤ)).getD a []).getD b 0 = 0 := by
  have h : ([[0, 0], [0, 0]] : List (List ℤ)).getD a [] = [0, 0] ∨
      ([[0, 0], [0, 0]] : List (List ℤ)).getD a [] = [] :=
    match a with
    | 0 => Or.inl rfl
    | 1 => Or.inl rfl
    | _ + 2 => Or.inr rfl
  cases h with
  | inl h => rw [h]; exact getD_zero2 b
  | inr h => rw [h]; rfl

lemma timeTransit_P0 (a b : ℕ) : timeTransit P0 a b = 0 := by
  unfold timeTransit time_cb
  rw [show P0.speed = (30 : ℝ) from rfl]
  rw [if_neg (by norm_num : ¬((30 : ℝ) = 0))]
  have hm : (P0.matrix.getD a []).getD b 0 = 0 := matrix00_getD a b
  have hs : P0.service_times.getD a 0 = 0 := getD_zero2 a
  rw [hm, hs]
  have h : ((0 : ℤ) : ℝ) / 1000 / 30 * 60 + ((0 : ℤ) : ℝ) = 0 := by norm_num
  rw [h, pytruncR_zero]

lemma timeTransit_P1 (a b : ℕ) : timeTransit P1 a b = 0 := timeTransit_P0 a b

lemma validSol_P0_s0 : ValidSol P0 s0 := by
  refine ⟨rfl, rfl, ?_, ?_, ?_⟩
  · have h : stopIdxs P0 = [1] := rfl
    rw [h]
    exact List.Perm.refl _
  · intro v hv
    have hv0 : v = 0 := Nat.lt_one_iff.mp hv
    subst hv0
    decide
  · intro v hv
    have hv0 : v = 0 := Nat.lt_one_iff.mp hv
    subst hv0
    show TimeOk P0 0 [1] [0, 0, 0]
    refine ⟨rfl, by decide, by decide, ?_, ?_, ?_⟩
    · intro k hk
      have hk2 : k < 2 := hk
      interval_cases k
      · exact ⟨by rw [timeTransit_P0]; decide, by rw [timeTransit_P0]; decide⟩
      · exact ⟨by rw [timeTransit_P0]; decide, by rw [timeTransit_P0]; decide⟩
    · intro k hk
      have hk1 : k < 1 := hk
      interval_cases k
      exact ⟨by decide, by decide⟩
    · intro k hk
      have hk3 : k < 3 := hk
      interval_cases k <;> exact ⟨by decide, by decide⟩

lemma solveP0_isSome : (SolveWithParameters P0).isSome := by
  unfold SolveWithParameters
  rw [dif_pos ⟨s0, validSol_P0_s0⟩]
  rfl

lemma cdm00 : create_distance_matrix [((0 : ℝ), (0 : ℝ)), (0, 0)] = [[0, 0], [0, 0]] := by
  simp [create_distance_matrix, haversine_self, pytruncR_zero]

lemma buildProblem_df0 : buildProblem df0 vdf0 ddf0 30 = .ok P0 := by
  have h : buildProblem df0 vdf0 ddf0 30 =
      .ok { P0 with matrix := create_distance_matrix [((0 : ℝ), (0 : ℝ)), (0, 0)] } := rfl
  rw [h, cdm00]
  rfl

lemma buildProblem_df1 : buildProblem df1 vdf1 ddf0 30 = .ok P1 := by
  have h : buildProblem df1 vdf1 ddf0 30 =
      .ok { P1 with matrix := create_distance_matrix [((0 : ℝ), (0 : ℝ)), (0, 0)] } := rfl
  rw [h, cdm00]
  rfl

/-- C3: whenever the solve succeeds, `optimize_routes` returns the
extraction of the solver's assignment, and that assignment contains
every stop node of the input in exactly one route (no stop is dropped,
none is duplicated).  The code never produces an `unassignedStops`
annotation: the only alternative outcome is the error of C4. -/
theorem c3_every_stop_in_exactly_one_route (df : List StopRec)
    (vdf : List VehicleRec) (ddf : List DriverRec) (sf : ℝ) (st : String)
    (P : Problem) (hbp : buildProblem df vdf ddf sf = .ok P)
    (h : (SolveWithParameters P).isSome) :
    optimize_routes df vdf ddf sf st =
      .ok (extractRoutes P ((SolveWithParameters P).get h), "route_map.html") ∧
    ∀ i ∈ stopIdxs P,
      ((SolveWithParameters P).get h).vroutes.flatten.count i = 1 := by
  obtain ⟨s, hsol⟩ := Option.isSome_iff_exists.mp h
  have hget : (SolveWithParameters P).get h = s :=
    Option.some.inj (by rw [Option.some_get, hsol])
  rw [hget]
  have hval : ValidSol P s := by
    unfold SolveWithParameters at hsol
    by_cases hex : ∃ s, ValidSol P s
    · rw [dif_pos hex] at hsol
      obtain rfl : hex.choose = s := (Option.some.injEq _ _).mp hsol
      exact hex.choose_spec
    · rw [dif_neg hex] at hsol
      exact absurd hsol (by simp)
  constructor
  · unfold optimize_routes
    rw [hbp]
    show (match SolveWithParameters P with
      | none => (Except.error (.valueError "No solution found.") :
          Except PyErr (List (List String) × String))
      | some sol => .ok (extractRoutes P sol, "route_map.html")) = _
    rw [hsol]
  · intro i hi
    obtain ⟨_, _, hperm, _, _⟩ := hval
    rw [hperm.count_eq]
    exact List.count_eq_one_of_mem (List.nodup_range' _ _) hi

/-- C3 witness: the one-depot, one-stop, one-vehicle instance `df0`. -/
theorem c3_every_stop_in_exactly_one_route_witness :
    buildProblem df0 vdf0 ddf0 30 = .ok P0 ∧
    (SolveWithParameters P0).isSome = true ∧
    1 ∈ stopIdxs P0 ∧
    optimize_routes df0 vdf0 ddf0 30 "PATH_CHEAPEST_ARC" =
      .ok (extractRoutes P0 ((SolveWithParameters P0).get solveP0_isSome),
        "route_map.html") ∧
    ((SolveWithParameters P0).get solveP0_isSome).vroutes.flatten.count 1 = 1 :=
  ⟨buildProblem_df0, solveP0_isSome, by decide,
    (c3_every_stop_in_exactly_one_route df0 vdf0 ddf0 30 "PATH_CHEAPEST_ARC" P0
      buildProblem_df0 solveP0_isSome).1,
    (c3_every_stop_in_exactly_one_route df0 vdf0 ddf0 30 "PATH_CHEAPEST_ARC" P0
      buildProblem_df0 solveP0_isSome).2 1 (by decide)⟩

/-- C4 counterexample: on `df1` the only stop's demand (5) exceeds the
only vehicle's capacity (3); instead of returning the other routes with
the stop reported as unassigned, `optimize_routes` aborts with
`ValueError`, so the claim is false at this input. -/
theorem c4_infeasible_demand_raises_value_error :
    optimize_routes df1 vdf1 ddf0 30 "PATH_CHEAPEST_ARC" =
      .error (.valueError "No solution found.") := by
  have hnone : SolveWithParameters P1 = none :=
    solve_none_of_oversized_demand P1 (by decide) rfl (by decide)
  unfold optimize_routes
  rw [buildProblem_df1]
  show (match SolveWithParameters P1 with
    | none => (Except.error (.valueError "No solution found.") :
        Except PyErr (List (List String) × String))
    | some sol => .ok (extractRoutes P1 sol, "route_map.html")) = _
  rw [hnone]

/-- C4 amended: when some stop's demand exceeds every vehicle's capacity
(demands non-negative), the registered model has no feasible assignment
and `optimize_routes` aborts the whole optimization with
`ValueError("No solution found.")` instead of returning routes for the
other stops; the code has no `unassignedStops` mechanism. -/
theorem c4_unassignable_stop_aborts (df : List StopRec)
    (vdf : List VehicleRec) (ddf : List DriverRec) (sf : ℝ) (st : String)
    (P : Problem) (hbp : buildProblem df vdf ddf sf = .ok P)
    (hnn : ∀ d ∈ P.demands, 0 ≤ d)
    (hcaps : P.caps.length = P.numVehicles)
    (hbig : ∃ i ∈ stopIdxs P, ∀ c ∈ P.caps, c < P.demands.getD i 0) :
    optimize_routes df vdf ddf sf st =
      .error (.valueError "No solution found.") := by
  have hnone := solve_none_of_oversized_demand P hnn hcaps hbig
  unfold optimize_routes
  rw [hbp]
  show (match SolveWithParameters P with
    | none => (Except.error (.valueError "No solution found.") :
        Except PyErr (List (List String) × String))
    | some sol => .ok (extractRoutes P sol, "route_map.html")) = _
  rw [hnone]

/-- C4 witness for the amended claim, at the oversized-demand instance
`df1`. -/
theorem c4_unassignable_stop_aborts_witness :
    buildProblem df1 vdf1 ddf0 30 = .ok P1 ∧
    (∀ d ∈ P1.demands, 0 ≤ d) ∧
    P1.caps.length = P1.numVehicles ∧
    (∃ i ∈ stopIdxs P1, ∀ c ∈ P1.caps, c < P1.demands.getD i 0) ∧
    optimize_routes df1 vdf1 ddf0 30 "PATH_CHEAPEST_ARC" =
      .error (.valueError "No solution found.") :=
  ⟨buildProblem_df1, by decide, rfl, by decide,
    c4_unassignable_stop_aborts df1 vdf1 ddf0 30 "PATH_CHEAPEST_ARC" P1
      buildProblem_df1 (by decide) rfl (by decide)⟩

/-! ## Parsing lemmas for C8 -/

lemma splitOnChar_ne_nil (c : Char) (s : List Char) : splitOnChar c s ≠ [] := by
  induction s with
  | nil => simp [splitOnChar]
  | cons x xs ih =>
    simp only [splitOnChar]
    by_cases hx : x = c
    · rw [if_pos hx]; simp
    · rw [if_neg hx]
      cases h : splitOnChar c xs with
      | nil => exact absurd h ih
      | cons p ps => simp

lemma splitOnChar_of_not_mem {c : Char} {s : List Char} (h : c ∉ s) :
    splitOnChar c s = [s] := by
  induction s with
  | nil => rfl
  | cons x xs ih =>
    have hx : ¬(x = c) := fun he => h (by subst he; exact List.mem_cons_self _ _)
    have hxs : c ∉ xs := fun hm => h (List.mem_cons_of_mem _ hm)
    simp only [splitOnChar]
    rw [if_neg hx, ih hxs]

lemma splitOnChar_append {c : Char} {a : List Char} (b : List Char) (h : c ∉ a) :
    splitOnChar c (a ++ c :: b) = a :: splitOnChar c b := by
  induction a with
  | nil => simp [splitOnChar]
  | cons x xs ih =>
    have hx : ¬(x = c) := fun he => h (by subst he; exact List.mem_cons_self _ _)
    have hxs : c ∉ xs := fun hm => h (List.mem_cons_of_mem _ hm)
    show splitOnChar c ((x :: xs) ++ c :: b) = (x :: xs) :: splitOnChar c b
    rw [List.cons_append]
    show (if x = c then [] :: splitOnChar c (xs ++ c :: b)
      else
        match splitOnChar c (xs ++ c :: b) with
        | [] => [[x]]
        | p :: ps => (x :: p) :: ps) = (x :: xs) :: splitOnChar c b
    rw [if_neg hx, ih hxs]

lemma splitOnChar_eq_single {c : Char} {s b : List Char}
    (h : splitOnChar c s = [b]) : s = b ∧ c ∉ s := by
  induction s generalizing b with
  | nil =>
    simp only [splitOnChar] at h
    obtain ⟨hb, -⟩ := List.cons_eq_cons.mp h
    exact ⟨hb, by simp⟩
  | cons x xs ih =>
    simp only [splitOnChar] at h
    by_cases hx : x = c
    · rw [if_pos hx] at h
      obtain ⟨-, h2⟩ := List.cons_eq_cons.mp h
      exact absurd h2 (splitOnChar_ne_nil c xs)
    · rw [if_neg hx] at h
      cases hsp : splitOnChar c xs with
      | nil => exact absurd hsp (splitOnChar_ne_nil c xs)
      | cons p ps =>
        rw [hsp] at h
        obtain ⟨hb, hps⟩ := List.cons_eq_cons.mp h
        subst hps
        obtain ⟨hxep, hcxs⟩ := ih hsp
        constructor
        · rw [← hb, hxep]
        · intro hm
          cases List.mem_cons.mp hm with
          | inl hcx => exact hx hcx.symm
          | inr hmxs => exact hcxs hmxs

lemma splitOnChar_eq_pair {c : Char} {s a b : List Char}
    (h : splitOnChar c s = [a, b]) : s = a ++ c :: b ∧ c ∉ a ∧ c ∉ b := by
  induction s generalizing a with
  | nil => simp [splitOnChar] at h
  | cons x xs ih =>
    simp only [splitOnChar] at h
    by_cases hx : x = c
    · rw [if_pos hx] at h
      obtain ⟨ha, hrest⟩ := List.cons_eq_cons.mp h
      obtain ⟨hxb, hcxs⟩ := splitOnChar_eq_single hrest
      subst hx
      refine ⟨?_, ?_, ?_⟩
      · rw [← ha, hxb]; rfl
      · rw [← ha]; simp
      · rw [← hxb]; exact hcxs
    · rw [if_neg hx] at h
      cases hsp : splitOnChar c xs with
      | nil => exact absurd hsp (splitOnChar_ne_nil c xs)
      | cons p ps =>
        rw [hsp] at h
        obtain ⟨hxp, hps⟩ := List.cons_eq_cons.mp h
        rw [hps] at hsp
        obtain ⟨hseq, hca, hcb⟩ := ih hsp
        refine ⟨?_, ?_, hcb⟩
        · rw [← hxp, List.cons_append, ← hseq]
        · rw [← hxp]
          intro hm
          cases List.mem_cons.mp hm with
          | inl hcx => exact hx hcx.symm
          | inr hmp => exact hca hmp

lemma not_mem_of_all_digits {ch : Char} (hch : ch.isDigit = false)
    {l : List Char} (h : l.all Char.isDigit) : ch ∉ l := by
  intro hm
  have hd := List.all_eq_true.mp h ch hm
  rw [hch] at hd
  exact Bool.noConfusion hd

lemma dropWhile_space_eq_self {l : List Char}
    (h : ∀ x ∈ l, ¬(x = ' ')) : l.dropWhile (· = ' ') = l := by
  cases l with
  | nil => rfl
  | cons x xs =>
    rw [List.dropWhile_cons, if_neg]
    simp only [decide_eq_true_eq]
    exact h x (List.mem_cons_self _ _)

lemma strip_of_all_digits {ds : List Char} (h : ds.all Char.isDigit) :
    strip ds = ds := by
  have hns : ∀ x ∈ ds, ¬(x = ' ') := by
    intro x hx hsp
    have hd := List.all_eq_true.mp h x hx
    rw [hsp] at hd
    exact absurd hd (by decide)
  unfold strip
  rw [dropWhile_space_eq_self hns,
    dropWhile_space_eq_self (fun x hx => hns x (List.mem_reverse.mp hx)),
    List.reverse_reverse]

lemma head_not_sign {ds : List Char} (h1 : ds ≠ []) (h2 : ds.all Char.isDigit) :
    ¬(ds.head? = some '-') ∧ ¬(ds.head? = some '+') := by
  cases ds with
  | nil => exact absurd rfl h1
  | cons x xs =>
    have hx : x.isDigit = true := List.all_eq_true.mp h2 x (List.mem_cons_self _ _)
    constructor
    · intro hh
      have hxm : x = '-' := by simpa using hh
      rw [hxm] at hx
      exact absurd hx (by decide)
    · intro hh
      have hxp : x = '+' := by simpa using hh
      rw [hxp] at hx
      exact absurd hx (by decide)

lemma pyint_digits {ds : List Char} (h1 : ds ≠ []) (h2 : ds.all Char.isDigit) :
    pyint ds = some ((digitsVal ds : ℕ) : ℤ) := by
  simp only [pyint]
  rw [strip_of_all_digits h2]
  rw [if_neg (head_not_sign h1 h2).1, if_neg (head_not_sign h1 h2).2]
  simp only [pyintCore]
  rw [if_pos ⟨h1, h2⟩]
  rfl

lemma pyfloat_digits {ds : List Char} (h1 : ds ≠ []) (h2 : ds.all Char.isDigit) :
    pyfloat ds = some ((digitsVal ds : ℕ) : ℚ) := by
  simp only [pyfloat]
  rw [strip_of_all_digits h2]
  rw [if_neg (head_not_sign h1 h2).1, if_neg (head_not_sign h1 h2).2]
  simp only [pyfloatCore]
  rw [if_neg (not_mem_of_all_digits (by decide) h2), if_pos ⟨h1, h2⟩, one_mul]

lemma pytruncQ_natCast (n : ℕ) : pytruncQ (n : ℚ) = n := by
  unfold pytruncQ
  rw [if_pos (Nat.cast_nonneg n)]
  exact Int.floor_natCast n

lemma eq_cons_of_head_some {l : List Char} {c : Char}
    (h : l.head? = some c) : l = c :: l.tail := by
  cases l with
  | nil => simp at h
  | cons x xs =>
    have hx : x = c := by simpa using h
    rw [hx]
    rfl

lemma pyintCore_sound {body : List Char} {n : ℕ}
    (h : pyintCore body = some n) : body ≠ [] ∧ body.all Char.isDigit := by
  simp only [pyintCore] at h
  by_cases hcond : body ≠ [] ∧ body.all Char.isDigit
  · exact hcond
  · rw [if_neg hcond] at h
    exact absurd h (by simp)

lemma pyint_sound {a : List Char} {z : ℤ} (h : pyint a = some z) :
    IntLiteral a := by
  simp only [pyint] at h
  by_cases h1 : (strip a).head? = some '-'
  · rw [if_pos h1] at h
    obtain ⟨n, hn, -⟩ := Option.map_eq_some'.mp h
    obtain ⟨hne, hdig⟩ := pyintCore_sound hn
    exact ⟨(strip a).tail, hne, hdig, Or.inr (Or.inl (eq_cons_of_head_some h1))⟩
  · rw [if_neg h1] at h
    by_cases h2 : (strip a).head? = some '+'
    · rw [if_pos h2] at h
      obtain ⟨n, hn, -⟩ := Option.map_eq_some'.mp h
      obtain ⟨hne, hdig⟩ := pyintCore_sound hn
      exact ⟨(strip a).tail, hne, hdig, Or.inr (Or.inr (eq_cons_of_head_some h2))⟩
    · rw [if_neg h2] at h
      obtain ⟨n, hn, -⟩ := Option.map_eq_some'.mp h
      obtain ⟨hne, hdig⟩ := pyintCore_sound hn
      exact ⟨strip a, hne, hdig, Or.inl rfl⟩

lemma pyfloatCore_sound {sg : ℚ} {body : List Char} {q : ℚ}
    (h : pyfloatCore sg body = some q) :
    (body ≠ [] ∧ body.all Char.isDigit) ∨
      ∃ ip fp, body = ip ++ '.' :: fp ∧ (ip ≠ [] ∨ fp ≠ []) ∧
        ip.all Char.isDigit ∧ fp.all Char.isDigit := by
  simp only [pyfloatCore] at h
  by_cases hd : '.' ∈ body
  · rw [if_pos hd] at h
    right
    cases hsp : splitOnChar '.' body with
    | nil => rw [hsp] at h; exact absurd h (by simp)
    | cons ip rest =>
      cases rest with
      | nil => rw [hsp] at h; exact absurd h (by simp)
      | cons fp rest2 =>
        cases rest2 with
        | nil =>
          rw [hsp] at h
          have h2 : (if (ip ≠ [] ∨ fp ≠ []) ∧
              ip.all Char.isDigit ∧ fp.all Char.isDigit then
              some (sg * ((digitsVal ip : ℚ) + (digitsVal fp : ℚ) / (10 : ℚ) ^ fp.length))
            else none) = some q := h
          by_cases hcond : (ip ≠ [] ∨ fp ≠ []) ∧
              ip.all Char.isDigit ∧ fp.all Char.isDigit
          · obtain ⟨hseq, -, -⟩ := splitOnChar_eq_pair hsp
            exact ⟨ip, fp, hseq, hcond.1, hcond.2.1, hcond.2.2⟩
          · rw [if_neg hcond] at h2
            exact absurd h2 (by simp)
        | cons _ _ => rw [hsp] at h; exact absurd h (by simp)
  · rw [if_neg hd] at h
    left
    by_cases hcond : body ≠ [] ∧ body.all Char.isDigit
    · exact hcond
    · rw [if_neg hcond] at h
      exact absurd h (by simp)

lemma pyfloat_sound {s : List Char} {q : ℚ} (h : pyfloat s = some q) :
    FloatLiteral s := by
  simp only [pyfloat] at h
  by_cases h1 : (strip s).head? = some '-'
  · rw [if_pos h1] at h
    exact ⟨['-'], (strip s).tail, Or.inr (Or.inl rfl),
      eq_cons_of_head_some h1, pyfloatCore_sound h⟩
  · rw [if_neg h1] at h
    by_cases h2 : (strip s).head? = some '+'
    · rw [if_pos h2] at h
      exact ⟨['+'], (strip s).tail, Or.inr (Or.inr rfl),
        eq_cons_of_head_some h2, pyfloatCore_sound h⟩
    · rw [if_neg h2] at h
      exact ⟨[], strip s, Or.inl rfl, rfl, pyfloatCore_sound h⟩

/-- C8: a time-of-day string `"H:M"` with digit-run pieces parses to
`H*60 + M` minutes since midnight, a numeric (digit-run) minute form
parses to its integer minute value, and every value whose string form is
not of a parsable shape makes `time_to_minutes` fail (with `ValueError`;
the code has no `InvalidTimeFormatError` class). -/
theorem c8_time_value_parsing :
    (∀ hs ms : List Char, hs ≠ [] → hs.all Char.isDigit →
      ms ≠ [] → ms.all Char.isDigit →
      time_to_minutes (.str (hs ++ ':' :: ms)) =
        .ok ((digitsVal hs : ℤ) * 60 + (digitsVal ms : ℤ))) ∧
    (∀ ds : List Char, ds ≠ [] → ds.all Char.isDigit →
      time_to_minutes (.str ds) = .ok ((digitsVal ds : ℕ) : ℤ)) ∧
    (∀ t v, time_to_minutes t = .ok v → WellFormedTime t) := by
  refine ⟨?_, ?_, ?_⟩
  · intro hs ms h1 h2 h3 h4
    have hchs : ':' ∉ hs := not_mem_of_all_digits (by decide) h2
    have hcms : ':' ∉ ms := not_mem_of_all_digits (by decide) h4
    show time_to_minutes_str (hs ++ ':' :: ms) = _
    unfold time_to_minutes_str
    rw [if_pos (List.mem_append_right hs (List.mem_cons_self ':' ms))]
    rw [splitOnChar_append ms hchs, splitOnChar_of_not_mem hcms]
    show (match pyint hs, pyint ms with
      | some h, some m => (Except.ok (h * 60 + m) : Except PyErr ℤ)
      | _, _ => .error (.valueError "invalid literal for int with base 10")) = _
    rw [pyint_digits h1 h2, pyint_digits h3 h4]
  · intro ds h1 h2
    have hcds : ':' ∉ ds := not_mem_of_all_digits (by decide) h2
    show time_to_minutes_str ds = _
    unfold time_to_minutes_str
    rw [if_neg hcds, pyfloat_digits h1 h2]
    show Except.ok (pytruncQ ((digitsVal ds : ℕ) : ℚ)) =
      Except.ok ((digitsVal ds : ℕ) : ℤ)
    rw [pytruncQ_natCast]
  · intro t v hok
    unfold time_to_minutes time_to_minutes_str at hok
    unfold WellFormedTime
    by_cases hc : ':' ∈ timeValStr t
    · rw [if_pos hc] at hok
      left
      cases hsp : splitOnChar ':' (timeValStr t) with
      | nil => exact absurd hsp (splitOnChar_ne_nil _ _)
      | cons a rest =>
        cases rest with
        | nil =>
          rw [hsp] at hok
          exact absurd hok (by simp)
        | cons b rest2 =>
          cases rest2 with
          | nil =>
            rw [hsp] at hok
            have hok2 : (match pyint a, pyint b with
              | some h, some m => (Except.ok (h * 60 + m) : Except PyErr ℤ)
              | _, _ =>
                .error (.valueError "invalid literal for int with base 10")) =
                Except.ok v := hok
            cases hpa : pyint a with
            | none =>
              rw [hpa] at hok2
              exact absurd hok2 (by simp)
            | some hh =>
              cases hpb : pyint b with
              | none =>
                rw [hpa, hpb] at hok2
                exact absurd hok2 (by simp)
              | some mm =>
                obtain ⟨hseq, hca, hcb⟩ := splitOnChar_eq_pair hsp
                exact ⟨a, b, hseq, hca, hcb, pyint_sound hpa, pyint_sound hpb⟩
          | cons c2 rest3 =>
            rw [hsp] at hok
            exact absurd hok (by simp)
    · rw [if_neg hc] at hok
      right
      refine ⟨hc, ?_⟩
      cases hpf : pyfloat (timeValStr t) with
      | none =>
        rw [hpf] at hok
        exact absurd hok (by simp)
      | some q => exact pyfloat_sound hpf

/-- C8 witness: `"12:34"` parses to 754, `"90"` parses to 90, and the
parsable input `"5"` is well-formed (third conjunct applied at its
successful parse). -/
theorem c8_time_value_parsing_witness :
    ((['1', '2'] : List Char) ≠ [] ∧ (['1', '2'] : List Char).all Char.isDigit ∧
      (['3', '4'] : List Char) ≠ [] ∧ (['3', '4'] : List Char).all Char.isDigit) ∧
    time_to_minutes (.str ['1', '2', ':', '3', '4']) =
      .ok ((digitsVal ['1', '2'] : ℤ) * 60 + (digitsVal ['3', '4'] : ℤ)) ∧
    time_to_minutes (.str ['9', '0']) = .ok ((digitsVal ['9', '0'] : ℕ) : ℤ) ∧
    WellFormedTime (.str ['5']) := by
  refine ⟨by decide, ?_, ?_, ?_⟩
  · exact c8_time_value_parsing.1 ['1', '2'] ['3', '4']
      (by decide) (by decide) (by decide) (by decide)
  · exact c8_time_value_parsing.2.1 ['9', '0'] (by decide) (by decide)
  · exact c8_time_value_parsing.2.2 (.str ['5']) ((digitsVal ['5'] : ℕ) : ℤ)
      (c8_time_value_parsing.2.1 ['5'] (by decide) (by decide))
